import Mathlib

set_option linter.unusedVariables false

/-!
Shallow embedding of the beerPong HTTP service core
(internal/api/handler.go): the throw-submission handler and the
cup-authorization handler, together with the observable effects each one
produces (HTTP responses, cache commands, policy-check invocations).
-/

namespace BeerPong

/-- `BallRequest` (internal/api/handler.go): the inbound throw request,
deserialized from the JSON body.  Field order mirrors the Go struct:
`UserID` (json tag user_id), `Role`, `Action`, `Target`. -/
structure BallRequest where
  UserID : String
  Role : String
  Action : String
  Target : String
deriving DecidableEq, Repr

/-- An HTTP response body: either a plain-text message, as written by
`http.Error`, or a JSON object with string fields, as written by
`json.NewEncoder(w).Encode` on a `map[string]string`. -/
inductive Body where
  | text (msg : String)
  | jsonObj (fields : List (String × String))
deriving DecidableEq, Repr

/-- An HTTP response: status code and body.  `http.Error` pairs its message
with the given status; `Encode` without a prior `WriteHeader` implies 200. -/
structure HttpResponse where
  status : Nat
  body : Body
deriving DecidableEq, Repr

/-- A command issued to the key-value store: redis `SET key value` with an
expiry in seconds (`time.Minute*5` in the handler is 300 seconds). -/
inductive CacheOp where
  | set (key value : String) (expirySeconds : Nat)
deriving DecidableEq, Repr

/-- The key-value store state, most recent binding first.  Each entry is
`(key, value, expirySeconds)`. -/
abbrev Cache := List (String × String × Nat)

/-- Look up a key: value and expiry of its most recent binding. -/
def cacheGet (c : Cache) (k : String) : Option (String × Nat) :=
  (c.find? (fun e => e.1 == k)).map (fun e => e.2)

/-- Redis `SET` semantics: the new binding replaces any previous binding of
the same key (value and expiry both overwritten). -/
def cacheSet (c : Cache) (k v : String) (ttl : Nat) : Cache :=
  (k, v, ttl) :: c.filter (fun e => !(e.1 == k))

/-- Outcome of the body-read and JSON-unmarshal stage of the throw handler:
`readFailed` models `io.ReadAll` returning an error, `unmarshalFailed`
models `json.Unmarshal` returning an error, and `parsed req` is a
successful parse. -/
inductive ParseOutcome where
  | readFailed
  | unmarshalFailed
  | parsed (req : BallRequest)
deriving DecidableEq, Repr

/-- `throwBallHandler` (internal/api/handler.go).  `input` is the result of
reading and unmarshalling the body; `redisNonNull` models
`config.RedisClient != nil`; `setFails` models the redis `SET` call
returning an error.  Returns the HTTP response, the cache state after the
handler (a failed `SET` commits nothing), and the list of cache commands
issued, in order. -/
def throwBallHandler (input : ParseOutcome) (redisNonNull : Bool)
    (setFails : Bool) (c : Cache) : HttpResponse × Cache × List CacheOp :=
  match input with
  | ParseOutcome.readFailed =>
      (⟨400, Body.text "Failed to read request body"⟩, c, [])
  | ParseOutcome.unmarshalFailed =>
      (⟨400, Body.text "Invalid request payload"⟩, c, [])
  | ParseOutcome.parsed req =>
      if req.UserID == "" || req.Action == "" || req.Target == "" then
        (⟨400, Body.text "Missing request fields"⟩, c, [])
      else if !redisNonNull then
        (⟨503, Body.text "Service unavailable"⟩, c, [])
      else
        -- redisKey := fmt.Sprintf("ball:%s", req.UserID)
        if setFails then
          (⟨500, Body.text "Internal server error"⟩, c,
           [CacheOp.set ("ball:" ++ req.UserID) req.Target 300])
        else
          (⟨202, Body.jsonObj [("message", "Ball thrown!")]⟩,
           cacheSet c ("ball:" ++ req.UserID) req.Target 300,
           [CacheOp.set ("ball:" ++ req.UserID) req.Target 300])

/-- The subject passed to the policy check: user key built by
`enforcement.UserBuilder`, with the assigned role list. -/
structure Subject where
  userKey : String
  roles : List String
deriving DecidableEq, Repr

/-- One policy-check question: subject, named permission, resource. -/
structure PolicyQuery where
  subject : Subject
  action : String
  resource : String
deriving DecidableEq, Repr

/-- Result of `config.PermitClient.Check`: a boolean decision or an error. -/
inductive CheckResult where
  | ok (allowed : Bool)
  | err
deriving DecidableEq, Repr

/-- Observable trace of one `cupHandler` run.  Fields, in order:
`responses` - the HTTP responses written, in order;
`checks` - the `Check` invocations, each paired with the cancellation
deadline (in seconds) actually passed along with the call
(`none` means no deadline accompanies the call);
`checkOnNilClient` - true when a `Check` invocation was made on the nil
client handle (a runtime fault in Go);
`timeoutCreatedSeconds` - the deadline of the `context.WithTimeout`
context created inside the handler, when one is created. -/
structure CupTrace where
  responses : List HttpResponse
  checks : List (Option Nat × PolicyQuery)
  checkOnNilClient : Bool
  timeoutCreatedSeconds : Option Nat
deriving DecidableEq, Repr

/-- `cupHandler` (internal/api/handler.go).  `permitNonNull` models
`config.PermitClient != nil`; `cupID` is the `cup_id` path variable;
`requestBody` and `headers` stand for the rest of the inbound request,
which the handler receives but never reads; `check` models the external
policy decision.

Faithful control flow: when the client is nil the handler writes the 500
error but does NOT return, so it still builds the query from the
zero-valued `var req BallRequest` and invokes `Check` on the nil handle;
that invocation dereferences the nil receiver, so no further response is
written.  The `context.WithTimeout` context (10 seconds) is created but
bound to `_`: `Check(userID, "beer", resource)` takes no context, so every
recorded invocation carries deadline `none`. -/
def cupHandler (permitNonNull : Bool) (cupID : String)
    (requestBody : String) (headers : List (String × String))
    (check : PolicyQuery → CheckResult) : CupTrace :=
  let req : BallRequest := ⟨"", "", "", ""⟩
  let userID : Subject := ⟨req.UserID, ["user"]⟩
  let q : PolicyQuery := ⟨userID, "beer", cupID⟩
  if permitNonNull then
    match check q with
    | CheckResult.err =>
        ⟨[⟨500, Body.text "Permission check failed"⟩], [(none, q)], false, some 10⟩
    | CheckResult.ok true =>
        ⟨[⟨200, Body.jsonObj [("message", "Access granted!"), ("cup", cupID)]⟩],
         [(none, q)], false, some 10⟩
    | CheckResult.ok false =>
        ⟨[⟨403, Body.text "Access denied!"⟩], [(none, q)], false, some 10⟩
  else
    ⟨[⟨500, Body.text "Permit.io failed initialization"⟩], [(none, q)], true, some 10⟩

/-! ## Cache lemmas -/

theorem cacheGet_set_self (c : Cache) (k v : String) (ttl : Nat) :
    cacheGet (cacheSet c k v ttl) k = some (v, ttl) := by
  simp [cacheGet, cacheSet, List.find?_cons]

theorem find?_filter_key (l : Cache) (k k' : String) (h : k' ≠ k) :
    (l.filter (fun e => !(e.1 == k))).find? (fun e => e.1 == k') =
      l.find? (fun e => e.1 == k') := by
  induction l with
  | nil => rfl
  | cons a l ih =>
    by_cases hak : a.1 = k
    · have hk1 : (a.1 == k) = true := beq_iff_eq.mpr hak
      have hk2 : (a.1 == k') = false := by
        rw [beq_eq_false_iff_ne, hak]
        exact fun hh => h hh.symm
      simp [List.filter_cons, List.find?_cons, hk1, hk2, ih]
    · have hk1 : (a.1 == k) = false := beq_eq_false_iff_ne.mpr hak
      cases hk2 : (a.1 == k') with
      | true => simp [List.filter_cons, List.find?_cons, hk1, hk2]
      | false => simp [List.filter_cons, List.find?_cons, hk1, hk2, ih]

theorem cacheGet_set_ne (c : Cache) (k k' v : String) (ttl : Nat)
    (h : k' ≠ k) : cacheGet (cacheSet c k v ttl) k' = cacheGet c k' := by
  have hk : (k == k') = false := beq_eq_false_iff_ne.mpr (fun hh => h hh.symm)
  simp [cacheGet, cacheSet, List.find?_cons, hk, find?_filter_key c k k' h]

/-! ## Throw handler claims -/

/-- C1: for every throw request whose parsed body has non-empty user_id,
action and target, with a non-null cache client and a succeeding write,
the handler issues exactly one cache write, setting `"ball:" ++ user_id`
to the target with 300-second (5-minute) expiry, responds 202 with body
`message = "Ball thrown!"`, the written key holds the target, and every
other key is untouched. -/
theorem throw_valid_write_accepted (req : BallRequest) (c : Cache) (k : String)
    (hu : req.UserID ≠ "") (ha : req.Action ≠ "") (ht : req.Target ≠ "")
    (hk : k ≠ "ball:" ++ req.UserID) :
    throwBallHandler (ParseOutcome.parsed req) true false c =
      (⟨202, Body.jsonObj [("message", "Ball thrown!")]⟩,
       cacheSet c ("ball:" ++ req.UserID) req.Target 300,
       [CacheOp.set ("ball:" ++ req.UserID) req.Target 300]) ∧
    cacheGet (throwBallHandler (ParseOutcome.parsed req) true false c).2.1
        ("ball:" ++ req.UserID) = some (req.Target, 300) ∧
    cacheGet (throwBallHandler (ParseOutcome.parsed req) true false c).2.1 k =
      cacheGet c k := by
  have h1 : (req.UserID == "") = false := beq_eq_false_iff_ne.mpr hu
  have h2 : (req.Action == "") = false := beq_eq_false_iff_ne.mpr ha
  have h3 : (req.Target == "") = false := beq_eq_false_iff_ne.mpr ht
  refine ⟨?_, ?_, ?_⟩
  · simp [throwBallHandler, h1, h2, h3]
  · simp [throwBallHandler, h1, h2, h3, cacheGet_set_self]
  · simp [throwBallHandler, h1, h2, h3,
      cacheGet_set_ne c ("ball:" ++ req.UserID) k req.Target 300 hk]

theorem throw_valid_write_accepted_witness :
    throwBallHandler (ParseOutcome.parsed ⟨"alice", "player", "throw", "cup3"⟩)
        true false [("ball:bob", "cup9", 300)] =
      (⟨202, Body.jsonObj [("message", "Ball thrown!")]⟩,
       cacheSet [("ball:bob", "cup9", 300)] ("ball:" ++ "alice") "cup3" 300,
       [CacheOp.set ("ball:" ++ "alice") "cup3" 300]) ∧
    cacheGet (throwBallHandler (ParseOutcome.parsed ⟨"alice", "player", "throw", "cup3"⟩)
        true false [("ball:bob", "cup9", 300)]).2.1 ("ball:" ++ "alice") =
      some ("cup3", 300) ∧
    cacheGet (throwBallHandler (ParseOutcome.parsed ⟨"alice", "player", "throw", "cup3"⟩)
        true false [("ball:bob", "cup9", 300)]).2.1 "ball:bob" =
      cacheGet [("ball:bob", "cup9", 300)] "ball:bob" :=
  throw_valid_write_accepted ⟨"alice", "player", "throw", "cup3"⟩
    [("ball:bob", "cup9", 300)] "ball:bob"
    (by decide) (by decide) (by decide) (by decide)

/-- C2: for every throw request whose body is unreadable, fails to parse,
or parses with an empty user_id, action or target, the handler responds
400, the cache state is unchanged, and no cache command is issued. -/
theorem throw_invalid_rejected (input : ParseOutcome)
    (redisNonNull setFails : Bool) (c : Cache)
    (h : input = ParseOutcome.readFailed ∨ input = ParseOutcome.unmarshalFailed ∨
      ∃ req, input = ParseOutcome.parsed req ∧
        (req.UserID = "" ∨ req.Action = "" ∨ req.Target = "")) :
    (throwBallHandler input redisNonNull setFails c).1.status = 400 ∧
    (throwBallHandler input redisNonNull setFails c).2.1 = c ∧
    (throwBallHandler input redisNonNull setFails c).2.2 = [] := by
  rcases h with h | h | ⟨req, hreq, hf⟩
  · subst h; exact ⟨rfl, rfl, rfl⟩
  · subst h; exact ⟨rfl, rfl, rfl⟩
  · subst hreq
    have hcond : (req.UserID == "" || req.Action == "" || req.Target == "") = true := by
      rcases hf with hf | hf | hf <;> simp [hf]
    simp [throwBallHandler, hcond]

theorem throw_invalid_rejected_witness :
    (throwBallHandler ParseOutcome.readFailed true false []).1.status = 400 ∧
    (throwBallHandler ParseOutcome.readFailed true false []).2.1 = ([] : Cache) ∧
    (throwBallHandler ParseOutcome.readFailed true false []).2.2 = [] :=
  throw_invalid_rejected ParseOutcome.readFailed true false [] (Or.inl rfl)

/-- C4: for every throw request with non-empty required fields, when the
cache client handle is null, the handler responds 503 and issues no cache
command; the cache state is unchanged. -/
theorem throw_cache_nil_unavailable (req : BallRequest) (setFails : Bool)
    (c : Cache)
    (hu : req.UserID ≠ "") (ha : req.Action ≠ "") (ht : req.Target ≠ "") :
    throwBallHandler (ParseOutcome.parsed req) false setFails c =
      (⟨503, Body.text "Service unavailable"⟩, c, []) := by
  have h1 : (req.UserID == "") = false := beq_eq_false_iff_ne.mpr hu
  have h2 : (req.Action == "") = false := beq_eq_false_iff_ne.mpr ha
  have h3 : (req.Target == "") = false := beq_eq_false_iff_ne.mpr ht
  simp [throwBallHandler, h1, h2, h3]

theorem throw_cache_nil_unavailable_witness :
    throwBallHandler (ParseOutcome.parsed ⟨"alice", "player", "throw", "cup3"⟩)
        false false [("ball:bob", "cup9", 300)] =
      (⟨503, Body.text "Service unavailable"⟩, [("ball:bob", "cup9", 300)], []) :=
  throw_cache_nil_unavailable ⟨"alice", "player", "throw", "cup3"⟩ false
    [("ball:bob", "cup9", 300)] (by decide) (by decide) (by decide)

/-- C7: for every valid throw request with a non-null cache client, when
the cache write fails, the handler responds 500, exactly one write command
was attempted (no retry), and the cache state is unchanged. -/
theorem throw_write_failure_internal_error (req : BallRequest) (c : Cache)
    (hu : req.UserID ≠ "") (ha : req.Action ≠ "") (ht : req.Target ≠ "") :
    throwBallHandler (ParseOutcome.parsed req) true true c =
      (⟨500, Body.text "Internal server error"⟩, c,
       [CacheOp.set ("ball:" ++ req.UserID) req.Target 300]) ∧
    (throwBallHandler (ParseOutcome.parsed req) true true c).2.2.length = 1 := by
  have h1 : (req.UserID == "") = false := beq_eq_false_iff_ne.mpr hu
  have h2 : (req.Action == "") = false := beq_eq_false_iff_ne.mpr ha
  have h3 : (req.Target == "") = false := beq_eq_false_iff_ne.mpr ht
  refine ⟨?_, ?_⟩ <;> simp [throwBallHandler, h1, h2, h3]

theorem throw_write_failure_internal_error_witness :
    throwBallHandler (ParseOutcome.parsed ⟨"alice", "player", "throw", "cup3"⟩)
        true true [] =
      (⟨500, Body.text "Internal server error"⟩, ([] : Cache),
       [CacheOp.set ("ball:" ++ "alice") "cup3" 300]) ∧
    (throwBallHandler (ParseOutcome.parsed ⟨"alice", "player", "throw", "cup3"⟩)
        true true []).2.2.length = 1 :=
  throw_write_failure_internal_error ⟨"alice", "player", "throw", "cup3"⟩ []
    (by decide) (by decide) (by decide)

/-- C9: two accepted throws from the same user, processed one after the
other against a reachable cache, both write the key `"ball:" ++ u`, and
after the second completes that key holds the second target with the
5-minute expiry (last-write-wins). -/
theorem throw_last_write_wins (u ro1 ro2 a1 a2 t1 t2 : String) (c : Cache)
    (hu : u ≠ "") (ha1 : a1 ≠ "") (ht1 : t1 ≠ "")
    (ha2 : a2 ≠ "") (ht2 : t2 ≠ "") :
    (throwBallHandler (ParseOutcome.parsed ⟨u, ro1, a1, t1⟩) true false c).2.2 =
      [CacheOp.set ("ball:" ++ u) t1 300] ∧
    (throwBallHandler (ParseOutcome.parsed ⟨u, ro2, a2, t2⟩) true false
        (throwBallHandler (ParseOutcome.parsed ⟨u, ro1, a1, t1⟩) true false c).2.1).2.2 =
      [CacheOp.set ("ball:" ++ u) t2 300] ∧
    cacheGet (throwBallHandler (ParseOutcome.parsed ⟨u, ro2, a2, t2⟩) true false
        (throwBallHandler (ParseOutcome.parsed ⟨u, ro1, a1, t1⟩) true false c).2.1).2.1
      ("ball:" ++ u) = some (t2, 300) := by
  have h0 : (u == "") = false := beq_eq_false_iff_ne.mpr hu
  have h1 : (a1 == "") = false := beq_eq_false_iff_ne.mpr ha1
  have h2 : (t1 == "") = false := beq_eq_false_iff_ne.mpr ht1
  have h3 : (a2 == "") = false := beq_eq_false_iff_ne.mpr ha2
  have h4 : (t2 == "") = false := beq_eq_false_iff_ne.mpr ht2
  refine ⟨?_, ?_, ?_⟩
  · simp [throwBallHandler, h0, h1, h2]
  · simp [throwBallHandler, h0, h1, h2, h3, h4]
  · simp [throwBallHandler, h0, h1, h2, h3, h4, cacheGet_set_self]

theorem throw_last_write_wins_witness :
    (throwBallHandler (ParseOutcome.parsed ⟨"alice", "p", "throw", "cup3"⟩)
        true false []).2.2 = [CacheOp.set ("ball:" ++ "alice") "cup3" 300] ∧
    (throwBallHandler (ParseOutcome.parsed ⟨"alice", "q", "throw", "cup7"⟩) true false
        (throwBallHandler (ParseOutcome.parsed ⟨"alice", "p", "throw", "cup3"⟩)
          true false []).2.1).2.2 =
      [CacheOp.set ("ball:" ++ "alice") "cup7" 300] ∧
    cacheGet (throwBallHandler (ParseOutcome.parsed ⟨"alice", "q", "throw", "cup7"⟩) true false
        (throwBallHandler (ParseOutcome.parsed ⟨"alice", "p", "throw", "cup3"⟩)
          true false []).2.1).2.1 ("ball:" ++ "alice") = some ("cup7", 300) :=
  throw_last_write_wins "alice" "p" "q" "throw" "throw" "cup3" "cup7" []
    (by decide) (by decide) (by decide) (by decide) (by decide)

/-- C10: the throw handler never reads the role field: two parsed requests
that agree on user_id, action and target (role arbitrary, including the
empty string that an absent JSON field parses to) yield the identical
response, cache state and cache commands. -/
theorem throw_role_independent (r1 r2 : BallRequest)
    (redisNonNull setFails : Bool) (c : Cache)
    (hu : r1.UserID = r2.UserID) (ha : r1.Action = r2.Action)
    (ht : r1.Target = r2.Target) :
    throwBallHandler (ParseOutcome.parsed r1) redisNonNull setFails c =
      throwBallHandler (ParseOutcome.parsed r2) redisNonNull setFails c := by
  obtain ⟨u1, ro1, a1, t1⟩ := r1
  obtain ⟨u2, ro2, a2, t2⟩ := r2
  dsimp only at hu ha ht
  subst hu; subst ha; subst ht
  rfl

theorem throw_role_independent_witness :
    throwBallHandler (ParseOutcome.parsed ⟨"alice", "player", "throw", "cup3"⟩)
        true false [] =
      throwBallHandler (ParseOutcome.parsed ⟨"alice", "", "throw", "cup3"⟩)
        true false [] :=
  throw_role_independent ⟨"alice", "player", "throw", "cup3"⟩
    ⟨"alice", "", "throw", "cup3"⟩ true false [] rfl rfl rfl

/-! ## Cup handler claims -/

/-- C3: with a non-null policy client, the cup handler maps the check
outcome to the response: permitted gives 200 with the message
"Access granted!" and the cup id echoed, denied gives 403, and a check
error gives 500. -/
theorem cupHandler_decision (cupID requestBody : String)
    (headers : List (String × String)) (check : PolicyQuery → CheckResult) :
    (cupHandler true cupID requestBody headers check).responses =
      match check ⟨⟨"", ["user"]⟩, "beer", cupID⟩ with
      | CheckResult.ok true =>
          [⟨200, Body.jsonObj [("message", "Access granted!"), ("cup", cupID)]⟩]
      | CheckResult.ok false => [⟨403, Body.text "Access denied!"⟩]
      | CheckResult.err => [⟨500, Body.text "Permission check failed"⟩] := by
  cases h : check ⟨⟨"", ["user"]⟩, "beer", cupID⟩ with
  | err => simp [cupHandler, h]
  | ok b => cases b <;> simp [cupHandler, h]

/-- C5 (code behavior at the failing input): with a nil policy client the
handler writes the 500 response but does not return; it still builds the
query and invokes Check on the nil client handle. -/
theorem cup_nil_client_still_invokes_check :
    (cupHandler false "cup3" "" [] (fun _ => CheckResult.ok false)).responses =
      [⟨500, Body.text "Permit.io failed initialization"⟩] ∧
    (cupHandler false "cup3" "" [] (fun _ => CheckResult.ok false)).checks =
      [(none, ⟨⟨"", ["user"]⟩, "beer", "cup3"⟩)] ∧
    (cupHandler false "cup3" "" [] (fun _ => CheckResult.ok false)).checkOnNilClient =
      true :=
  ⟨rfl, rfl, rfl⟩

/-- C6: every cup-handler run issues exactly one policy check, whose
subject has the empty user key (built from the zero-valued request) and
the single role "user", and whose action is the constant "beer"; only the
resource varies, as the cup id, and the whole trace is independent of the
request body and headers. -/
theorem cup_subject_fixed (permitNonNull : Bool)
    (cupID requestBody requestBody' : String)
    (headers headers' : List (String × String))
    (check : PolicyQuery → CheckResult) :
    (cupHandler permitNonNull cupID requestBody headers check).checks.map Prod.snd =
      [⟨⟨"", ["user"]⟩, "beer", cupID⟩] ∧
    cupHandler permitNonNull cupID requestBody headers check =
      cupHandler permitNonNull cupID requestBody' headers' check := by
  refine ⟨?_, rfl⟩
  cases permitNonNull with
  | false => rfl
  | true =>
    cases h : check ⟨⟨"", ["user"]⟩, "beer", cupID⟩ with
    | err => simp [cupHandler, h]
    | ok b => cases b <;> simp [cupHandler, h]

/-- C8 counterexample: at a concrete request the policy-check invocation
does not carry the 10-second deadline created in the handler — the claim
that the timeout context is threaded into the call is false. -/
theorem cup_timeout_not_threaded_cex :
    ¬ ((cupHandler true "cup1" "" [] (fun _ => CheckResult.ok true)).checks =
        [(some 10, ⟨⟨"", ["user"]⟩, "beer", "cup1"⟩)]) := by
  decide

/-- C8 amended: every cup-handler run creates a 10-second timeout context,
but no policy-check invocation carries that deadline — the context is
discarded and the check is issued without it. -/
theorem cup_timeout_created_not_threaded (permitNonNull : Bool)
    (cupID requestBody : String) (headers : List (String × String))
    (check : PolicyQuery → CheckResult) :
    (cupHandler permitNonNull cupID requestBody headers check).timeoutCreatedSeconds =
      some 10 ∧
    (cupHandler permitNonNull cupID requestBody headers check).checks.map Prod.fst =
      [none] := by
  cases permitNonNull with
  | false => exact ⟨rfl, rfl⟩
  | true =>
    cases h : check ⟨⟨"", ["user"]⟩, "beer", cupID⟩ with
    | err => simp [cupHandler, h]
    | ok b => cases b <;> simp [cupHandler, h]

end BeerPong
